import Mathlib

/-!
Verification development for the household PV + battery-storage sizing
calculator (`pv_storage_optimizer.py`).  The core computational functions
of the source — `calculate_system` (spec name `size_system`),
`simulate_energy_flow` (spec name `simulate_day`) and `economic_analysis`
(spec name `analyze_economics`) — are embedded shallowly over `ℝ`,
mirroring the Python arithmetic exactly (Python floats are modelled as
exact reals, `np.sin` as `Real.sin`, Python's `round(x, 2)` as
round-half-to-even on the exact value).
-/

/-- An equipment-catalog entry (`PV_COMPONENTS` value in the source):
module efficiency in percent and price per watt. -/
structure EquipmentSpec where
  efficiency : ℝ
  price_per_w : ℝ

/-- All user-supplied scalars read from the sidebar widgets in the source.
Percentages are stored as percent values (e.g. `battery_efficiency = 95`),
exactly as the source's variables hold them. -/
structure SystemParameters where
  monthly_usage : ℝ
  peak_usage : ℝ
  backup_hours : ℝ
  sunshine_hours : ℝ
  system_loss : ℝ
  pv_power_per_panel : ℝ
  pv_count : ℝ
  battery_capacity : ℝ
  battery_efficiency : ℝ
  dod_limit : ℝ
  inverter_power : ℝ
  inverter_efficiency : ℝ
  inverter_price : ℝ
  electricity_price : ℝ
  subsidy : ℝ
  feed_in_tariff : ℝ

/-- Round half to even, the semantics of Python's builtin `round` on the
exact value: nearest integer, ties going to the even neighbour. -/
noncomputable def roundHalfEven (x : ℝ) : ℤ :=
  if Int.fract x = 1 / 2 then (if Even ⌊x⌋ then ⌊x⌋ else ⌊x⌋ + 1) else round x

/-- Python's `round(x, 2)`: round to two decimal places. -/
noncomputable def round2 (x : ℝ) : ℝ :=
  (roundHalfEven (x * 100) : ℝ) / 100

/-- The sizing record returned by `calculate_system` (the source's dict with
keys 光伏总功率/日均发电量/电池容量/可用容量/逆变器功率). -/
structure SizingResult where
  total_pv_power_kw : ℝ
  daily_generation_kwh : ℝ
  battery_capacity_kwh : ℝ
  usable_capacity_kwh : ℝ
  inverter_power_kw : ℝ

/-- The function `calculate_system` (spec interface `size_system`).  Mirrors the source:
`pv_power_kw = pv_power_per_panel / 1000` (line 70), then
`pv_total_power = pv_power_kw * pv_count`,
`daily_generation = pv_total_power * sunshine_hours * (efficiency/100) * (1 - system_loss/100)`,
`usable_capacity = battery_capacity * (dod_limit/100)`, each value being
rounded to two decimals (`round(_, 2)`) when packed into the returned
record, exactly as in lines 84-90 of the source. -/
noncomputable def calculate_system (e : EquipmentSpec) (p : SystemParameters) :
    SizingResult :=
  let pv_power_kw := p.pv_power_per_panel / 1000
  let pv_total_power := pv_power_kw * p.pv_count
  let daily_generation :=
    pv_total_power * p.sunshine_hours * (e.efficiency / 100) * (1 - p.system_loss / 100)
  let usable_capacity := p.battery_capacity * (p.dod_limit / 100)
  { total_pv_power_kw := round2 pv_total_power
    daily_generation_kwh := round2 daily_generation
    battery_capacity_kwh := round2 p.battery_capacity
    usable_capacity_kwh := round2 usable_capacity
    inverter_power_kw := p.inverter_power }

/-- One hour's record of the simulated profile (one row of the lists built
by `simulate_energy_flow`). -/
structure HourRecord where
  generation_kwh : ℝ
  consumption_kwh : ℝ
  battery_soc_kwh : ℝ
  grid_import_kwh : ℝ
  grid_export_kwh : ℝ
  battery_charge_kwh : ℝ
  battery_discharge_kwh : ℝ

/-- The generation curve of `simulate_energy_flow` (lines 106-110): zero
outside hours 6..18, and inside the loop `for h in range(6, 19)` the value
`daily_generation * sin(((h - 6) / 12) * pi) * 0.5`. -/
noncomputable def generation (s : SizingResult) (h : ℕ) : ℝ :=
  if 6 ≤ h ∧ h < 19 then
    s.daily_generation_kwh * Real.sin (((h : ℝ) - 6) / 12 * Real.pi) * 0.5
  else 0

/-- The consumption curve of `simulate_energy_flow` (lines 113-120):
`base_load = (monthly_usage / 30) / 24` each hour, scaled by `1.8` during
the morning peak `7 <= h <= 10` and the evening peak `18 <= h <= 22`. -/
noncomputable def consumption (p : SystemParameters) (h : ℕ) : ℝ :=
  let base_load := p.monthly_usage / 30 / 24
  if (7 ≤ h ∧ h ≤ 10) ∨ (18 ≤ h ∧ h ≤ 22) then base_load * 1.8 else base_load

/-- One iteration of the dispatch loop of `simulate_energy_flow`
(lines 132-159), acting on the carried `current_soc`.  Returns the hour's
record together with the updated `current_soc`.  `eff_frac` stands for the
source's `battery_efficiency / 100`. -/
noncomputable def dispatch_step (usable_capacity eff_frac gen cons soc : ℝ) :
    HourRecord × ℝ :=
  let net_generation := gen - cons
  if 0 < net_generation then
    let max_charge := min net_generation ((usable_capacity - soc) / eff_frac)
    let new_soc := soc + max_charge * eff_frac
    let remaining := net_generation - max_charge
    ({ generation_kwh := gen
       consumption_kwh := cons
       battery_soc_kwh := new_soc
       grid_import_kwh := 0
       grid_export_kwh := if 0 < remaining then remaining else 0
       battery_charge_kwh := max_charge
       battery_discharge_kwh := 0 }, new_soc)
  else
    let deficit := -net_generation
    let max_discharge := min deficit (soc * eff_frac)
    let new_soc := soc - max_discharge / eff_frac
    let remaining_deficit := deficit - max_discharge
    ({ generation_kwh := gen
       consumption_kwh := cons
       battery_soc_kwh := new_soc
       grid_import_kwh := if 0 < remaining_deficit then remaining_deficit else 0
       grid_export_kwh := 0
       battery_charge_kwh := 0
       battery_discharge_kwh := max_discharge }, new_soc)

/-- The carried battery state of charge: `current_soc = 0` before hour 0
(line 129), and after hour `h` the second component of the dispatch step. -/
noncomputable def current_soc (s : SizingResult) (p : SystemParameters) :
    ℕ → ℝ
  | 0 => 0
  | h + 1 =>
    (dispatch_step s.usable_capacity_kwh (p.battery_efficiency / 100)
      (generation s h) (consumption p h) (current_soc s p h)).2

/-- The function `simulate_energy_flow` (spec interface `simulate_day`): the hour-`h`
record of the simulated profile. -/
noncomputable def simulate_energy_flow (s : SizingResult) (p : SystemParameters)
    (h : ℕ) : HourRecord :=
  (dispatch_step s.usable_capacity_kwh (p.battery_efficiency / 100)
    (generation s h) (consumption p h) (current_soc s p h)).1

/-- The record returned by `economic_analysis`.  The fields hold the values
the source computes in lines 176-206; the final `round(...)` calls the
source applies when packing its display dict (lines 209-218) are pure
presentation and are not modelled.  `payback_years = none` stands for the
source's `float('inf')` sentinel (displayed as ">50年"). -/
structure EconomicResult where
  pv_investment : ℝ
  battery_investment : ℝ
  inverter_investment : ℝ
  total_investment : ℝ
  annual_generation : ℝ
  annual_consumption : ℝ
  annual_self_consumption : ℝ
  annual_grid_import : ℝ
  annual_grid_export : ℝ
  annual_benefit : ℝ
  payback_years : Option ℝ

/-- The function `economic_analysis` (spec interface `analyze_economics`), lines 174-219
of the source. -/
noncomputable def economic_analysis (e : EquipmentSpec) (p : SystemParameters)
    (s : SizingResult) (flow : ℕ → HourRecord) : EconomicResult :=
  let pv_investment := p.pv_count * p.pv_power_per_panel * e.price_per_w
  let battery_investment := p.battery_capacity * 1000
  let inverter_investment := p.inverter_price
  let total_investment := pv_investment + battery_investment + inverter_investment
  let annual_generation := s.daily_generation_kwh * 365
  let annual_consumption := p.monthly_usage * 12
  let annual_grid_import := (∑ h in Finset.range 24, (flow h).grid_import_kwh) * 365 / 24
  let annual_grid_export := (∑ h in Finset.range 24, (flow h).grid_export_kwh) * 365 / 24
  let saving_from_self_use := (annual_consumption - annual_grid_import) * p.electricity_price
  let income_from_export := annual_grid_export * p.feed_in_tariff
  let subsidy_income := annual_generation * p.subsidy
  let total_annual_benefit := saving_from_self_use + income_from_export + subsidy_income
  { pv_investment := pv_investment
    battery_investment := battery_investment
    inverter_investment := inverter_investment
    total_investment := total_investment
    annual_generation := annual_generation
    annual_consumption := annual_consumption
    annual_self_consumption := annual_consumption - annual_grid_import
    annual_grid_import := annual_grid_import
    annual_grid_export := annual_grid_export
    annual_benefit := total_annual_benefit
    payback_years :=
      if 0 < total_annual_benefit then some (total_investment / total_annual_benefit)
      else none }

/-- All fields of a sizing record are non-negative. -/
def SizingResult.Nonneg (s : SizingResult) : Prop :=
  0 ≤ s.total_pv_power_kw ∧ 0 ≤ s.daily_generation_kwh ∧
    0 ≤ s.battery_capacity_kwh ∧ 0 ≤ s.usable_capacity_kwh ∧
    0 ≤ s.inverter_power_kw

/-! ### Helper lemmas about rounding -/

lemma roundHalfEven_le_add_half (x : ℝ) : (roundHalfEven x : ℝ) ≤ x + 1 / 2 := by
  unfold roundHalfEven
  split_ifs with h1 h2
  · have hfl : (⌊x⌋ : ℝ) = x - 1 / 2 := by
      have := Int.self_sub_floor x
      rw [h1] at this; linarith
    rw [hfl]; linarith
  · have hfl : (⌊x⌋ : ℝ) = x - 1 / 2 := by
      have := Int.self_sub_floor x
      rw [h1] at this; linarith
    push_cast
    rw [hfl]; linarith
  · have := abs_sub_round x
    rw [abs_le] at this
    linarith [this.1]

lemma sub_half_le_roundHalfEven (x : ℝ) : x - 1 / 2 ≤ (roundHalfEven x : ℝ) := by
  unfold roundHalfEven
  split_ifs with h1 h2
  · have hfl : (⌊x⌋ : ℝ) = x - 1 / 2 := by
      have := Int.self_sub_floor x
      rw [h1] at this; linarith
    rw [hfl]
  · have hfl : (⌊x⌋ : ℝ) = x - 1 / 2 := by
      have := Int.self_sub_floor x
      rw [h1] at this; linarith
    push_cast
    rw [hfl]; linarith
  · have := abs_sub_round x
    rw [abs_le] at this
    linarith [this.2]

lemma roundHalfEven_mono {x y : ℝ} (hxy : x ≤ y) :
    roundHalfEven x ≤ roundHalfEven y := by
  by_contra hlt
  push_neg at hlt
  have h1 : (roundHalfEven y : ℝ) + 1 ≤ (roundHalfEven x : ℝ) := by
    exact_mod_cast Int.add_one_le_iff.mpr hlt
  have h2 := roundHalfEven_le_add_half x
  have h3 := sub_half_le_roundHalfEven y
  have hyx : y ≤ x := by linarith
  have hxyeq : x = y := le_antisymm hxy hyx
  rw [hxyeq] at hlt
  exact lt_irrefl _ hlt

lemma round2_mono {x y : ℝ} (hxy : x ≤ y) : round2 x ≤ round2 y := by
  unfold round2
  have h : roundHalfEven (x * 100) ≤ roundHalfEven (y * 100) :=
    roundHalfEven_mono (by linarith)
  have h2 : (roundHalfEven (x * 100) : ℝ) ≤ (roundHalfEven (y * 100) : ℝ) := by
    exact_mod_cast h
  linarith

lemma roundHalfEven_eq {x : ℝ} (n : ℤ) (hl : (n : ℝ) - 1 / 2 < x)
    (hu : x < (n : ℝ) + 1 / 2) : roundHalfEven x = n := by
  rcases le_or_lt (n : ℝ) x with hnx | hxn
  · have hfl : ⌊x⌋ = n := Int.floor_eq_iff.mpr ⟨hnx, by linarith⟩
    have hfr : Int.fract x ≠ 1 / 2 := by
      have := Int.self_sub_floor x
      rw [hfl] at this
      intro hcon
      rw [hcon] at this
      linarith
    unfold roundHalfEven
    rw [if_neg hfr, round_eq]
    exact Int.floor_eq_iff.mpr ⟨by linarith, by linarith⟩
  · have hfl : ⌊x⌋ = n - 1 := Int.floor_eq_iff.mpr ⟨by push_cast; linarith, by push_cast; linarith⟩
    have hfr : Int.fract x ≠ 1 / 2 := by
      have := Int.self_sub_floor x
      rw [hfl] at this
      intro hcon
      push_cast at this
      rw [hcon] at this
      linarith
    unfold roundHalfEven
    rw [if_neg hfr, round_eq]
    exact Int.floor_eq_iff.mpr ⟨by linarith, by linarith⟩

lemma round2_eq {x : ℝ} (n : ℤ) (hl : (n : ℝ) - 1 / 2 < x * 100)
    (hu : x * 100 < (n : ℝ) + 1 / 2) : round2 x = (n : ℝ) / 100 := by
  unfold round2
  rw [roundHalfEven_eq n hl hu]

/-! ### Helper lemmas about the dispatch step -/

lemma dispatch_step_soc_surplus (usable eff gen cons soc : ℝ) (heff : 0 < eff)
    (hnet : 0 < gen - cons) :
    (dispatch_step usable eff gen cons soc).2 = min (soc + (gen - cons) * eff) usable := by
  simp only [dispatch_step, if_pos hnet]
  have h1 : min (gen - cons) ((usable - soc) / eff) * eff
      = min ((gen - cons) * eff) (usable - soc) := by
    rw [min_mul_of_nonneg _ _ heff.le, div_mul_cancel₀ _ heff.ne']
  rw [h1, ← min_add_add_left]
  congr 1
  ring

lemma dispatch_step_soc_deficit (usable eff gen cons soc : ℝ) (heff : 0 < eff)
    (hnet : ¬ 0 < gen - cons) :
    (dispatch_step usable eff gen cons soc).2
      = max (soc - (cons - gen) / eff) 0 := by
  simp only [dispatch_step, if_neg hnet]
  have h1 : min (-(gen - cons)) (soc * eff) / eff
      = min ((cons - gen) / eff) soc := by
    rw [← min_div_div_right heff.le, mul_div_cancel_right₀ _ heff.ne']
    congr 1
    ring
  rw [h1, ← max_sub_sub_left soc ((cons - gen) / eff) soc, sub_self]

lemma dispatch_step_fst_soc (u e g c so : ℝ) :
    ((dispatch_step u e g c so).1).battery_soc_kwh = (dispatch_step u e g c so).2 := by
  by_cases hn : 0 < g - c <;> simp [dispatch_step, hn]

lemma simulate_battery_soc (s : SizingResult) (p : SystemParameters) (h : ℕ) :
    (simulate_energy_flow s p h).battery_soc_kwh = current_soc s p (h + 1) := by
  unfold simulate_energy_flow
  rw [dispatch_step_fst_soc]
  rfl

lemma current_soc_bounds (s : SizingResult) (p : SystemParameters)
    (heff : 0 < p.battery_efficiency / 100) (hcap : 0 ≤ s.usable_capacity_kwh) :
    ∀ h, 0 ≤ current_soc s p h ∧ current_soc s p h ≤ s.usable_capacity_kwh := by
  intro h
  induction h with
  | zero => exact ⟨le_refl 0, hcap⟩
  | succ n ih =>
    by_cases hn : 0 < generation s n - consumption p n
    · simp only [current_soc]
      rw [dispatch_step_soc_surplus _ _ _ _ _ heff hn]
      refine ⟨le_min ?_ hcap, min_le_right _ _⟩
      nlinarith [ih.1]
    · simp only [current_soc]
      rw [dispatch_step_soc_deficit _ _ _ _ _ heff hn]
      refine ⟨le_max_right _ _, max_le ?_ hcap⟩
      have hd : 0 ≤ (consumption p n - generation s n) / (p.battery_efficiency / 100) :=
        div_nonneg (by linarith [not_lt.mp hn]) heff.le
      linarith [ih.2]

lemma generation_congr (s₁ s₂ : SizingResult)
    (hgen : s₁.daily_generation_kwh = s₂.daily_generation_kwh) (h : ℕ) :
    generation s₁ h = generation s₂ h := by
  unfold generation
  rw [hgen]

lemma consumption_congr (p₁ p₂ : SystemParameters)
    (husage : p₁.monthly_usage = p₂.monthly_usage) (h : ℕ) :
    consumption p₁ h = consumption p₂ h := by
  unfold consumption
  rw [husage]

lemma current_soc_mono (s₁ s₂ : SizingResult) (p₁ p₂ : SystemParameters)
    (hgen : s₁.daily_generation_kwh = s₂.daily_generation_kwh)
    (husage : p₁.monthly_usage = p₂.monthly_usage)
    (heffeq : p₁.battery_efficiency = p₂.battery_efficiency)
    (heff : 0 < p₁.battery_efficiency / 100)
    (hcap : s₁.usable_capacity_kwh ≤ s₂.usable_capacity_kwh) :
    ∀ h, current_soc s₁ p₁ h ≤ current_soc s₂ p₂ h := by
  intro h
  induction h with
  | zero => exact le_refl 0
  | succ n ih =>
    simp only [current_soc]
    rw [← generation_congr s₁ s₂ hgen n, ← consumption_congr p₁ p₂ husage n, ← heffeq]
    by_cases hn : 0 < generation s₁ n - consumption p₁ n
    · rw [dispatch_step_soc_surplus _ _ _ _ _ heff hn,
        dispatch_step_soc_surplus _ _ _ _ _ heff hn]
      exact min_le_min (by linarith) hcap
    · rw [dispatch_step_soc_deficit _ _ _ _ _ heff hn,
        dispatch_step_soc_deficit _ _ _ _ _ heff hn]
      exact max_le_max (by linarith) (le_refl 0)

lemma grid_import_mono (s₁ s₂ : SizingResult) (p₁ p₂ : SystemParameters)
    (hgen : s₁.daily_generation_kwh = s₂.daily_generation_kwh)
    (husage : p₁.monthly_usage = p₂.monthly_usage)
    (heffeq : p₁.battery_efficiency = p₂.battery_efficiency)
    (heff : 0 < p₁.battery_efficiency / 100)
    (hcap : s₁.usable_capacity_kwh ≤ s₂.usable_capacity_kwh) :
    ∀ h, (simulate_energy_flow s₂ p₂ h).grid_import_kwh
      ≤ (simulate_energy_flow s₁ p₁ h).grid_import_kwh := by
  intro h
  have hsoc := current_soc_mono s₁ s₂ p₁ p₂ hgen husage heffeq heff hcap h
  unfold simulate_energy_flow
  rw [← generation_congr s₁ s₂ hgen h, ← consumption_congr p₁ p₂ husage h, ← heffeq]
  by_cases hn : 0 < generation s₁ h - consumption p₁ h
  · simp [dispatch_step, hn]
  · simp only [dispatch_step, if_neg hn]
    have hmin : min (-(generation s₁ h - consumption p₁ h))
          (current_soc s₁ p₁ h * (p₁.battery_efficiency / 100))
        ≤ min (-(generation s₁ h - consumption p₁ h))
          (current_soc s₂ p₂ h * (p₁.battery_efficiency / 100)) :=
      min_le_min (le_refl _) (mul_le_mul_of_nonneg_right hsoc heff.le)
    split_ifs with h2 h1 h1
    · linarith
    · linarith
    · linarith
    · exact le_refl 0

lemma dispatch_step_pos (u e g c so : ℝ) (hn : 0 < g - c) :
    dispatch_step u e g c so =
      ({ generation_kwh := g
         consumption_kwh := c
         battery_soc_kwh := so + min (g - c) ((u - so) / e) * e
         grid_import_kwh := 0
         grid_export_kwh :=
           if 0 < g - c - min (g - c) ((u - so) / e) then
             g - c - min (g - c) ((u - so) / e)
           else 0
         battery_charge_kwh := min (g - c) ((u - so) / e)
         battery_discharge_kwh := 0 },
        so + min (g - c) ((u - so) / e) * e) := by
  simp only [dispatch_step, if_pos hn]

lemma dispatch_step_nonpos (u e g c so : ℝ) (hn : ¬ 0 < g - c) :
    dispatch_step u e g c so =
      ({ generation_kwh := g
         consumption_kwh := c
         battery_soc_kwh := so - min (-(g - c)) (so * e) / e
         grid_import_kwh :=
           if 0 < -(g - c) - min (-(g - c)) (so * e) then
             -(g - c) - min (-(g - c)) (so * e)
           else 0
         grid_export_kwh := 0
         battery_charge_kwh := 0
         battery_discharge_kwh := min (-(g - c)) (so * e) },
        so - min (-(g - c)) (so * e) / e) := by
  simp only [dispatch_step, if_neg hn]

/-! ### Concrete example values (the worked example of the spec: 450 W
modules × 20, efficiency 21.3 %, 4.5 sunshine hours, 15 % loss, 10 kWh
battery at 95 % efficiency and 90 % depth of discharge). -/

/-- The catalog entry 隆基Hi-MO 5: efficiency 21.3 %, 2.5 yuan per watt. -/
noncomputable def exampleEquipment : EquipmentSpec :=
  { efficiency := 21.3, price_per_w := 2.5 }

/-- The default sidebar parameter set of the source. -/
noncomputable def exampleParams : SystemParameters :=
  { monthly_usage := 500
    peak_usage := 60
    backup_hours := 4
    sunshine_hours := 4.5
    system_loss := 15
    pv_power_per_panel := 450
    pv_count := 20
    battery_capacity := 10
    battery_efficiency := 95
    dod_limit := 90
    inverter_power := 5
    inverter_efficiency := 98
    inverter_price := 10000
    electricity_price := 0.6
    subsidy := 0.3
    feed_in_tariff := 0.2 }

/-- The sizing record the source computes from `exampleEquipment` and
`exampleParams` (9 kW, 7.33 kWh/day after rounding, 10 kWh battery,
9 kWh usable, 5 kW inverter). -/
noncomputable def exampleSizing : SizingResult :=
  { total_pv_power_kw := 9
    daily_generation_kwh := 7.33
    battery_capacity_kwh := 10
    usable_capacity_kwh := 9
    inverter_power_kw := 5 }

/-- The parameter set `exampleParams` with all three tariffs set to zero (the sentinel case
of the spec). -/
noncomputable def zeroTariffParams : SystemParameters :=
  { exampleParams with electricity_price := 0, subsidy := 0, feed_in_tariff := 0 }

/-- An all-zero hourly record, used as a concrete profile input. -/
noncomputable def zeroHour : HourRecord :=
  { generation_kwh := 0
    consumption_kwh := 0
    battery_soc_kwh := 0
    grid_import_kwh := 0
    grid_export_kwh := 0
    battery_charge_kwh := 0
    battery_discharge_kwh := 0 }

/-! ### The claims -/

/-- C1: for every hour `h ≤ 23` of the profile returned by
`simulate_energy_flow` (spec interface `simulate_day`), the recorded
battery state of charge satisfies
`0 ≤ battery_soc[h] ≤ usable_capacity_kwh`, for every non-negative
`SizingResult` and every `SystemParameters` whose battery-efficiency
fraction lies in `(0, 1]`. -/
theorem battery_soc_bounded (s : SizingResult) (p : SystemParameters)
    (hs : s.Nonneg) (heff0 : 0 < p.battery_efficiency / 100)
    (_heff1 : p.battery_efficiency / 100 ≤ 1) (h : ℕ) (_hh : h ≤ 23) :
    0 ≤ (simulate_energy_flow s p h).battery_soc_kwh ∧
      (simulate_energy_flow s p h).battery_soc_kwh ≤ s.usable_capacity_kwh := by
  rw [simulate_battery_soc]
  exact current_soc_bounds s p heff0 hs.2.2.2.1 (h + 1)

/-- Witness for C1 at the source's default configuration, hour 0. -/
theorem battery_soc_bounded_witness :
    exampleSizing.Nonneg ∧ 0 < exampleParams.battery_efficiency / 100 ∧
      exampleParams.battery_efficiency / 100 ≤ 1 ∧ (0 : ℕ) ≤ 23 ∧
      (0 ≤ (simulate_energy_flow exampleSizing exampleParams 0).battery_soc_kwh ∧
        (simulate_energy_flow exampleSizing exampleParams 0).battery_soc_kwh
          ≤ exampleSizing.usable_capacity_kwh) :=
  ⟨by refine ⟨?_, ?_, ?_, ?_, ?_⟩ <;> norm_num [exampleSizing],
    by norm_num [exampleParams], by norm_num [exampleParams], by norm_num,
    battery_soc_bounded exampleSizing exampleParams
      (by refine ⟨?_, ?_, ?_, ?_, ?_⟩ <;> norm_num [exampleSizing])
      (by norm_num [exampleParams]) (by norm_num [exampleParams]) 0 (by norm_num)⟩

/-- C6: grid import and grid export are never both positive in the same
hour: their product is zero at every hour of the simulated profile. -/
theorem no_simultaneous_import_export (s : SizingResult) (p : SystemParameters)
    (h : ℕ) :
    (simulate_energy_flow s p h).grid_import_kwh
      * (simulate_energy_flow s p h).grid_export_kwh = 0 := by
  unfold simulate_energy_flow
  by_cases hn : 0 < generation s h - consumption p h
  · rw [dispatch_step_pos _ _ _ _ _ hn]
    simp
  · rw [dispatch_step_nonpos _ _ _ _ _ hn]
    simp

/-- C10: the battery is never charged and discharged in the same hour:
the product of the hourly charge and discharge amounts is zero. -/
theorem no_simultaneous_charge_discharge (s : SizingResult)
    (p : SystemParameters) (h : ℕ) :
    (simulate_energy_flow s p h).battery_charge_kwh
      * (simulate_energy_flow s p h).battery_discharge_kwh = 0 := by
  unfold simulate_energy_flow
  by_cases hn : 0 < generation s h - consumption p h
  · rw [dispatch_step_pos _ _ _ _ _ hn]
    simp
  · rw [dispatch_step_nonpos _ _ _ _ _ hn]
    simp

/-- C9: the per-hour energy balance
`generation − consumption = (charge − discharge) + (export − import)`
holds exactly at every hour of the simulated profile. -/
theorem hourly_energy_balance (s : SizingResult) (p : SystemParameters)
    (h : ℕ) :
    (simulate_energy_flow s p h).generation_kwh
        - (simulate_energy_flow s p h).consumption_kwh
      = ((simulate_energy_flow s p h).battery_charge_kwh
          - (simulate_energy_flow s p h).battery_discharge_kwh)
        + ((simulate_energy_flow s p h).grid_export_kwh
          - (simulate_energy_flow s p h).grid_import_kwh) := by
  unfold simulate_energy_flow
  by_cases hn : 0 < generation s h - consumption p h
  · rw [dispatch_step_pos _ _ _ _ _ hn]
    have hle : min (generation s h - consumption p h)
          ((s.usable_capacity_kwh - current_soc s p h) / (p.battery_efficiency / 100))
        ≤ generation s h - consumption p h := min_le_left _ _
    dsimp only
    split_ifs with hr
    · ring
    · have h0 : generation s h - consumption p h
          - min (generation s h - consumption p h)
            ((s.usable_capacity_kwh - current_soc s p h)
              / (p.battery_efficiency / 100)) = 0 :=
        le_antisymm (not_lt.mp hr) (by linarith)
      linarith
  · rw [dispatch_step_nonpos _ _ _ _ _ hn]
    have hle : min (-(generation s h - consumption p h))
          (current_soc s p h * (p.battery_efficiency / 100))
        ≤ -(generation s h - consumption p h) := min_le_left _ _
    dsimp only
    split_ifs with hr
    · ring
    · have h0 : -(generation s h - consumption p h)
          - min (-(generation s h - consumption p h))
            (current_soc s p h * (p.battery_efficiency / 100)) = 0 :=
        le_antisymm (not_lt.mp hr) (by linarith)
      linarith

/-- C8: the generation entry of the simulated profile is zero outside the
hour window `[6, 19)` and equals
`daily_generation_kwh * sin(pi * (h - 6) / 12) * 0.5` inside it. -/
theorem generation_curve_spec (s : SizingResult) (p : SystemParameters)
    (h : ℕ) :
    (simulate_energy_flow s p h).generation_kwh =
      if 6 ≤ h ∧ h < 19 then
        s.daily_generation_kwh * Real.sin (Real.pi * ((h : ℝ) - 6) / 12) * 0.5
      else 0 := by
  have hg : (simulate_energy_flow s p h).generation_kwh = generation s h := by
    unfold simulate_energy_flow
    by_cases hn : 0 < generation s h - consumption p h
    · rw [dispatch_step_pos _ _ _ _ _ hn]
    · rw [dispatch_step_nonpos _ _ _ _ _ hn]
  rw [hg]
  unfold generation
  by_cases hw : 6 ≤ h ∧ h < 19
  · rw [if_pos hw, if_pos hw,
      show ((h : ℝ) - 6) / 12 * Real.pi = Real.pi * ((h : ℝ) - 6) / 12 from by ring]
  · rw [if_neg hw, if_neg hw]

/-- C3: the dispatch policy of `simulate_energy_flow`, stated hour by hour:
the state threads through `current_soc` starting at `0`; on a strict
surplus the battery charges by
`min(net, (usable − soc) / eff_frac)`, the state rises by
`charge × eff_frac`, and the positive part of `net − charge` is exported;
otherwise, with `deficit = −net`, the battery discharges by
`min(deficit, soc × eff_frac)`, the state falls by
`discharge / eff_frac`, and the positive part of `deficit − discharge` is
imported. -/
theorem dispatch_policy_spec (s : SizingResult) (p : SystemParameters)
    (h : ℕ) :
    current_soc s p 0 = 0 ∧
    (simulate_energy_flow s p h).battery_charge_kwh =
      (if 0 < generation s h - consumption p h then
        min (generation s h - consumption p h)
          ((s.usable_capacity_kwh - current_soc s p h)
            / (p.battery_efficiency / 100))
      else 0) ∧
    (simulate_energy_flow s p h).battery_discharge_kwh =
      (if 0 < generation s h - consumption p h then 0
      else
        min (-(generation s h - consumption p h))
          (current_soc s p h * (p.battery_efficiency / 100))) ∧
    current_soc s p (h + 1) =
      (if 0 < generation s h - consumption p h then
        current_soc s p h
          + (simulate_energy_flow s p h).battery_charge_kwh
            * (p.battery_efficiency / 100)
      else
        current_soc s p h
          - (simulate_energy_flow s p h).battery_discharge_kwh
            / (p.battery_efficiency / 100)) ∧
    (simulate_energy_flow s p h).battery_soc_kwh = current_soc s p (h + 1) ∧
    (simulate_energy_flow s p h).grid_export_kwh =
      (if 0 < generation s h - consumption p h ∧
          0 < generation s h - consumption p h
            - (simulate_energy_flow s p h).battery_charge_kwh then
        generation s h - consumption p h
          - (simulate_energy_flow s p h).battery_charge_kwh
      else 0) ∧
    (simulate_energy_flow s p h).grid_import_kwh =
      (if ¬ 0 < generation s h - consumption p h ∧
          0 < -(generation s h - consumption p h)
            - (simulate_energy_flow s p h).battery_discharge_kwh then
        -(generation s h - consumption p h)
          - (simulate_energy_flow s p h).battery_discharge_kwh
      else 0) := by
  by_cases hn : 0 < generation s h - consumption p h
  · have hsoc : current_soc s p (h + 1) = current_soc s p h
        + min (generation s h - consumption p h)
          ((s.usable_capacity_kwh - current_soc s p h)
            / (p.battery_efficiency / 100)) * (p.battery_efficiency / 100) := by
      simp only [current_soc]
      rw [dispatch_step_pos _ _ _ _ _ hn]
    unfold simulate_energy_flow
    rw [dispatch_step_pos _ _ _ _ _ hn]
    refine ⟨rfl, ?_, ?_, ?_, ?_, ?_, ?_⟩ <;> dsimp only <;> simp [hn, hsoc]
  · have hsoc : current_soc s p (h + 1) = current_soc s p h
        - min (-(generation s h - consumption p h))
          (current_soc s p h * (p.battery_efficiency / 100))
            / (p.battery_efficiency / 100) := by
      simp only [current_soc]
      rw [dispatch_step_nonpos _ _ _ _ _ hn]
    unfold simulate_energy_flow
    rw [dispatch_step_nonpos _ _ _ _ _ hn]
    refine ⟨rfl, ?_, ?_, ?_, ?_, ?_, ?_⟩ <;> dsimp only <;> simp [hn, hsoc]

/-- C4: `economic_analysis` (spec interface `analyze_economics`) computes
the annual grid import and export as the sum of the 24 hourly values
scaled by `365 / 24`, for every hourly profile. -/
theorem annual_import_export_formula (e : EquipmentSpec)
    (p : SystemParameters) (s : SizingResult) (flow : ℕ → HourRecord) :
    (economic_analysis e p s flow).annual_grid_import
        = (∑ h in Finset.range 24, (flow h).grid_import_kwh) * 365 / 24 ∧
      (economic_analysis e p s flow).annual_grid_export
        = (∑ h in Finset.range 24, (flow h).grid_export_kwh) * 365 / 24 :=
  ⟨rfl, rfl⟩

/-- C5: the payback entry is `total_investment / annual_benefit` when the
annual benefit is positive, and the unbounded sentinel (`none`, the
source's `float('inf')` / ">50年") when it is non-positive; in particular
with electricity price, feed-in tariff and subsidy all zero the annual
benefit is zero and the sentinel is reported. -/
theorem payback_sentinel (e : EquipmentSpec) (p : SystemParameters)
    (s : SizingResult) (flow : ℕ → HourRecord) :
    (0 < (economic_analysis e p s flow).annual_benefit →
      (economic_analysis e p s flow).payback_years
        = some ((economic_analysis e p s flow).total_investment
            / (economic_analysis e p s flow).annual_benefit)) ∧
    ((economic_analysis e p s flow).annual_benefit ≤ 0 →
      (economic_analysis e p s flow).payback_years = none) ∧
    (p.electricity_price = 0 ∧ p.feed_in_tariff = 0 ∧ p.subsidy = 0 →
      (economic_analysis e p s flow).annual_benefit = 0 ∧
      (economic_analysis e p s flow).payback_years = none) := by
  have hpb : (economic_analysis e p s flow).payback_years
      = if 0 < (economic_analysis e p s flow).annual_benefit then
          some ((economic_analysis e p s flow).total_investment
            / (economic_analysis e p s flow).annual_benefit)
        else none := rfl
  refine ⟨?_, ?_, ?_⟩
  · intro hb
    rw [hpb, if_pos hb]
  · intro hb
    rw [hpb, if_neg (not_lt.mpr hb)]
  · intro hz
    have hb : (economic_analysis e p s flow).annual_benefit = 0 := by
      show (p.monthly_usage * 12
            - (∑ h in Finset.range 24, (flow h).grid_import_kwh) * 365 / 24)
              * p.electricity_price
          + (∑ h in Finset.range 24, (flow h).grid_export_kwh) * 365 / 24
              * p.feed_in_tariff
          + s.daily_generation_kwh * 365 * p.subsidy = 0
      rw [hz.1, hz.2.1, hz.2.2]
      ring
    refine ⟨hb, ?_⟩
    rw [hpb, if_neg (by rw [hb]; exact lt_irrefl 0)]

/-- Witness for C5: the source's default configuration with all three
tariffs set to zero reports a zero benefit and the sentinel. -/
theorem payback_sentinel_witness :
    (zeroTariffParams.electricity_price = 0 ∧ zeroTariffParams.feed_in_tariff = 0 ∧
      zeroTariffParams.subsidy = 0) ∧
    ((economic_analysis exampleEquipment zeroTariffParams exampleSizing
        fun _ => zeroHour).annual_benefit = 0 ∧
      (economic_analysis exampleEquipment zeroTariffParams exampleSizing
        fun _ => zeroHour).payback_years = none) :=
  ⟨⟨rfl, rfl, rfl⟩,
    (payback_sentinel exampleEquipment zeroTariffParams exampleSizing
      fun _ => zeroHour).2.2 ⟨rfl, rfl, rfl⟩⟩

/-- The full pipeline of the source's main logic (lines 240-242):
sizing, then the day simulation, then the economic analysis. -/
noncomputable def full_pipeline (e : EquipmentSpec) (p : SystemParameters) :
    EconomicResult :=
  economic_analysis e p (calculate_system e p)
    (simulate_energy_flow (calculate_system e p) p)

/-- C2: enlarging `battery_capacity` (all other parameters fixed, with a
non-negative depth of discharge and a positive battery efficiency, as the
input ranges guarantee) never decreases the annual self-consumption and
never increases the annual grid import reported by the full pipeline. -/
theorem battery_capacity_monotone (e : EquipmentSpec) (p : SystemParameters)
    (c₁ c₂ : ℝ) (hdod : 0 ≤ p.dod_limit) (heff : 0 < p.battery_efficiency)
    (hc : c₁ ≤ c₂) :
    (full_pipeline e { p with battery_capacity := c₁ }).annual_self_consumption
        ≤ (full_pipeline e { p with battery_capacity := c₂ }).annual_self_consumption
      ∧ (full_pipeline e { p with battery_capacity := c₂ }).annual_grid_import
        ≤ (full_pipeline e { p with battery_capacity := c₁ }).annual_grid_import := by
  have hcap : (calculate_system e { p with battery_capacity := c₁ }).usable_capacity_kwh
      ≤ (calculate_system e { p with battery_capacity := c₂ }).usable_capacity_kwh := by
    show round2 (c₁ * (p.dod_limit / 100)) ≤ round2 (c₂ * (p.dod_limit / 100))
    exact round2_mono (mul_le_mul_of_nonneg_right hc (div_nonneg hdod (by norm_num)))
  have hsum : (∑ h in Finset.range 24,
        (simulate_energy_flow (calculate_system e { p with battery_capacity := c₂ })
          { p with battery_capacity := c₂ } h).grid_import_kwh)
      ≤ ∑ h in Finset.range 24,
        (simulate_energy_flow (calculate_system e { p with battery_capacity := c₁ })
          { p with battery_capacity := c₁ } h).grid_import_kwh :=
    Finset.sum_le_sum fun h _ =>
      grid_import_mono (calculate_system e { p with battery_capacity := c₁ })
        (calculate_system e { p with battery_capacity := c₂ })
        { p with battery_capacity := c₁ } { p with battery_capacity := c₂ }
        rfl rfl rfl (div_pos heff (by norm_num)) hcap h
  have him₁ : (full_pipeline e { p with battery_capacity := c₁ }).annual_grid_import
      = (∑ h in Finset.range 24,
          (simulate_energy_flow (calculate_system e { p with battery_capacity := c₁ })
            { p with battery_capacity := c₁ } h).grid_import_kwh) * 365 / 24 := rfl
  have him₂ : (full_pipeline e { p with battery_capacity := c₂ }).annual_grid_import
      = (∑ h in Finset.range 24,
          (simulate_energy_flow (calculate_system e { p with battery_capacity := c₂ })
            { p with battery_capacity := c₂ } h).grid_import_kwh) * 365 / 24 := rfl
  have hsc₁ : (full_pipeline e { p with battery_capacity := c₁ }).annual_self_consumption
      = p.monthly_usage * 12
        - (∑ h in Finset.range 24,
            (simulate_energy_flow (calculate_system e { p with battery_capacity := c₁ })
              { p with battery_capacity := c₁ } h).grid_import_kwh) * 365 / 24 := rfl
  have hsc₂ : (full_pipeline e { p with battery_capacity := c₂ }).annual_self_consumption
      = p.monthly_usage * 12
        - (∑ h in Finset.range 24,
            (simulate_energy_flow (calculate_system e { p with battery_capacity := c₂ })
              { p with battery_capacity := c₂ } h).grid_import_kwh) * 365 / 24 := rfl
  rw [hsc₁, hsc₂, him₁, him₂]
  constructor
  · linarith
  · linarith

/-- Witness for C2 at the source's default configuration, with the battery
enlarged from 10 kWh to 12 kWh. -/
theorem battery_capacity_monotone_witness :
    0 ≤ exampleParams.dod_limit ∧ 0 < exampleParams.battery_efficiency ∧
      (10 : ℝ) ≤ 12 ∧
      ((full_pipeline exampleEquipment
            { exampleParams with battery_capacity := 10 }).annual_self_consumption
          ≤ (full_pipeline exampleEquipment
            { exampleParams with battery_capacity := 12 }).annual_self_consumption
        ∧ (full_pipeline exampleEquipment
            { exampleParams with battery_capacity := 12 }).annual_grid_import
          ≤ (full_pipeline exampleEquipment
            { exampleParams with battery_capacity := 10 }).annual_grid_import) :=
  ⟨by norm_num [exampleParams], by norm_num [exampleParams], by norm_num,
    battery_capacity_monotone exampleEquipment exampleParams 10 12
      (by norm_num [exampleParams]) (by norm_num [exampleParams]) (by norm_num)⟩

/-- Counterexample to C7 as stated: at the spec's own worked example
(450 W × 20 modules, 21.3 % efficiency, 4.5 sunshine hours, 15 % loss),
the returned `daily_generation_kwh` is `7.33` (the exact product
`7.332525` rounded to two decimals by the source's `round(_, 2)`), so it
differs from the claimed exact formula
`total_pv_power_kw × sunshine_hours × efficiency_fraction × (1 − loss)`. -/
theorem sizing_formula_counterexample :
    (calculate_system exampleEquipment exampleParams).daily_generation_kwh
      ≠ (calculate_system exampleEquipment exampleParams).total_pv_power_kw
          * exampleParams.sunshine_hours * (exampleEquipment.efficiency / 100)
          * (1 - exampleParams.system_loss / 100) := by
  have harg : exampleParams.pv_power_per_panel / 1000 * exampleParams.pv_count
      * exampleParams.sunshine_hours * (exampleEquipment.efficiency / 100)
      * (1 - exampleParams.system_loss / 100) = 7.332525 := by
    norm_num [exampleParams, exampleEquipment]
  have h1 : (calculate_system exampleEquipment exampleParams).daily_generation_kwh
      = 7.33 := by
    show round2 (exampleParams.pv_power_per_panel / 1000 * exampleParams.pv_count
      * exampleParams.sunshine_hours * (exampleEquipment.efficiency / 100)
      * (1 - exampleParams.system_loss / 100)) = 7.33
    rw [harg, round2_eq 733 (by norm_num) (by norm_num)]
    norm_num
  have h2 : (calculate_system exampleEquipment exampleParams).total_pv_power_kw
      = 9 := by
    show round2 (exampleParams.pv_power_per_panel / 1000 * exampleParams.pv_count) = 9
    have harg2 : exampleParams.pv_power_per_panel / 1000 * exampleParams.pv_count
        = 9 := by norm_num [exampleParams]
    rw [harg2, round2_eq 900 (by norm_num) (by norm_num)]
    norm_num
  rw [h1, h2]
  norm_num [exampleParams, exampleEquipment]

/-- C7 amended: `calculate_system` (spec interface `size_system`) returns
the three sizing formulas each rounded to two decimal places
(round-half-to-even, Python's `round(_, 2)`); on the worked example this
gives exactly `9.0` kW of PV power, `7.33` kWh/day of generation and
`9.0` kWh of usable capacity. -/
theorem sizing_formulas_rounded (e : EquipmentSpec) (p : SystemParameters) :
    (calculate_system e p).total_pv_power_kw
        = round2 (p.pv_power_per_panel / 1000 * p.pv_count) ∧
      (calculate_system e p).daily_generation_kwh
        = round2 (p.pv_power_per_panel / 1000 * p.pv_count * p.sunshine_hours
            * (e.efficiency / 100) * (1 - p.system_loss / 100)) ∧
      (calculate_system e p).usable_capacity_kwh
        = round2 (p.battery_capacity * (p.dod_limit / 100)) ∧
      (calculate_system exampleEquipment exampleParams).total_pv_power_kw = 9 ∧
      (calculate_system exampleEquipment exampleParams).daily_generation_kwh = 7.33 ∧
      (calculate_system exampleEquipment exampleParams).usable_capacity_kwh = 9 := by
  refine ⟨rfl, rfl, rfl, ?_, ?_, ?_⟩
  · show round2 (exampleParams.pv_power_per_panel / 1000 * exampleParams.pv_count) = 9
    have harg : exampleParams.pv_power_per_panel / 1000 * exampleParams.pv_count
        = 9 := by norm_num [exampleParams]
    rw [harg, round2_eq 900 (by norm_num) (by norm_num)]
    norm_num
  · show round2 (exampleParams.pv_power_per_panel / 1000 * exampleParams.pv_count
      * exampleParams.sunshine_hours * (exampleEquipment.efficiency / 100)
      * (1 - exampleParams.system_loss / 100)) = 7.33
    have harg : exampleParams.pv_power_per_panel / 1000 * exampleParams.pv_count
        * exampleParams.sunshine_hours * (exampleEquipment.efficiency / 100)
        * (1 - exampleParams.system_loss / 100) = 7.332525 := by
      norm_num [exampleParams, exampleEquipment]
    rw [harg, round2_eq 733 (by norm_num) (by norm_num)]
    norm_num
  · show round2 (exampleParams.battery_capacity * (exampleParams.dod_limit / 100)) = 9
    have harg : exampleParams.battery_capacity * (exampleParams.dod_limit / 100)
        = 9 := by norm_num [exampleParams]
    rw [harg, round2_eq 900 (by norm_num) (by norm_num)]
    norm_num
